import Mathlib

/-!
Shallow embedding of `keras_hub/src/models/gemma3/gemma3_vision_encoder.py`.

Modelling conventions: machine floating-point values are modelled by real
numbers; Python integers by `Nat`; constructor bodies that can raise
(`__init__`) by `Except String`; Python functions that can return `None`
by `Option`.  Tensors are dependently typed functions over `Fin`
dimensions, so a tensor of shape (b, s, d) is `Fin b → Fin s → Fin d → ℝ`.
-/

/-- Tensor of shape (b, s, d): batch, sequence, feature. -/
abbrev Tensor3 (b s d : Nat) := Fin b → Fin s → Fin d → ℝ

/-- Tensor of shape (b, n, s, d): batch, heads, sequence, feature. -/
abbrev Tensor4 (b n s d : Nat) := Fin b → Fin n → Fin s → Fin d → ℝ

/-- Additive attention mask of shape (b, 1, s, s); the singleton head axis is
broadcast over all heads, so it is modelled as (b, s, s). -/
abbrev AttnMask (b s : Nat) := Fin b → Fin s → Fin s → ℝ

/-- A `keras.layers.Dense` layer: kernel of shape (dIn, dOut) and bias of
shape (dOut); the output is `x @ kernel + bias`. -/
structure DenseLayer (dIn dOut : Nat) where
  kernel : Fin dIn → Fin dOut → ℝ
  bias : Fin dOut → ℝ

/-- Apply a dense layer to one feature vector. -/
noncomputable def DenseLayer.apply {dIn dOut : Nat} (L : DenseLayer dIn dOut)
    (v : Fin dIn → ℝ) : Fin dOut → ℝ :=
  fun j => (∑ i, v i * L.kernel i j) + L.bias j

/-- Apply a dense layer pointwise over the leading axes of a rank-3 tensor. -/
noncomputable def DenseLayer.apply3 {b s dIn dOut : Nat} (L : DenseLayer dIn dOut)
    (x : Tensor3 b s dIn) : Tensor3 b s dOut :=
  fun i t => L.apply (x i t)

/-- A `keras.layers.LayerNormalization` layer over the last axis. -/
structure LayerNorm (d : Nat) where
  eps : ℝ
  gamma : Fin d → ℝ
  beta : Fin d → ℝ

/-- Apply layer normalization to one feature vector: center by the mean,
scale by the root of variance plus epsilon, then apply gamma and beta. -/
noncomputable def LayerNorm.apply {d : Nat} (L : LayerNorm d) (v : Fin d → ℝ) :
    Fin d → ℝ :=
  fun j =>
    L.gamma j * ((v j - (∑ i, v i) / d) /
      Real.sqrt ((∑ i, (v i - (∑ i2, v i2) / d) ^ 2) / d + L.eps)) + L.beta j

/-- Apply layer normalization pointwise over the leading axes. -/
noncomputable def LayerNorm.apply3 {b s d : Nat} (L : LayerNorm d)
    (x : Tensor3 b s d) : Tensor3 b s d :=
  fun i t => L.apply (x i t)

/-- `ops.softmax(v, axis=-1)` on one row. -/
noncomputable def softmax {s : Nat} (v : Fin s → ℝ) : Fin s → ℝ :=
  fun t => Real.exp (v t) / ∑ u, Real.exp (v u)

/-- `keras.activations.gelu(x, approximate=True)`: the tanh approximation of
the Gaussian error linear unit. -/
noncomputable def gelu_approx (x : ℝ) : ℝ :=
  0.5 * x * (1 + Real.tanh (Real.sqrt (2 / Real.pi) * (x + 0.044715 * x ^ 3)))

/-- The feature axis of length nh * hd is nonempty only when hd is positive. -/
theorem hd_pos_of_fin {nh hd : Nat} (j : Fin (nh * hd)) : 0 < hd := by
  rcases Nat.eq_zero_or_pos hd with h | h
  · subst h
    have hj := j.isLt
    simp at hj
  · exact h

/-- Row-major packing of a (head, within-head) index pair into the flat
feature index `h * hd + k`, as done by `ops.reshape` on the last axis. -/
def finPack {nh hd : Nat} (h : Fin nh) (k : Fin hd) : Fin (nh * hd) :=
  ⟨h.val * hd + k.val, by
    have hk := k.isLt
    have hle : (h.val + 1) * hd ≤ nh * hd := Nat.mul_le_mul_right hd h.isLt
    have : h.val * hd + k.val < (h.val + 1) * hd := by
      have : (h.val + 1) * hd = h.val * hd + hd := by ring
      omega
    omega⟩

/-- Head index of a flat feature index: `j / hd`, the row-major inverse of
`finPack` used when reshaping (b, s, nh*hd) into (b, s, nh, hd). -/
def finHead {nh hd : Nat} (j : Fin (nh * hd)) : Fin nh :=
  ⟨j.val / hd, (Nat.div_lt_iff_lt_mul (hd_pos_of_fin j)).mpr j.isLt⟩

/-- Within-head index of a flat feature index: `j % hd`. -/
def finSub {nh hd : Nat} (j : Fin (nh * hd)) : Fin hd :=
  ⟨j.val % hd, Nat.mod_lt _ (hd_pos_of_fin j)⟩

/-- The `Gemma3VisionAttention` layer with its four dense projections.  The
hidden dimension is `nh * hd` (num_heads times head_dim).  `dropoutApply`
models the training-mode behaviour of the `keras.layers.Dropout` sublayer
(an external library layer); with `training=False` the dropout layer is the
identity, which is encoded in `call` below. -/
structure Gemma3VisionAttention (nh hd : Nat) where
  query_proj : DenseLayer (nh * hd) (nh * hd)
  key_proj : DenseLayer (nh * hd) (nh * hd)
  value_proj : DenseLayer (nh * hd) (nh * hd)
  out_proj : DenseLayer (nh * hd) (nh * hd)
  dropoutApply : (b s : Nat) → Tensor4 b nh s s → Tensor4 b nh s s

namespace Gemma3VisionAttention

variable {b s nh hd : Nat}

/-- `_transpose_for_scores`: reshape (b, s, nh*hd) to (b, s, nh, hd) and
transpose to (b, nh, s, hd). -/
noncomputable def transpose_for_scores (t : Tensor3 b s (nh * hd)) :
    Tensor4 b nh s hd :=
  fun i h u k => t i u (finPack h k)

/-- Raw attention scores: `ops.matmul(query_layer, transpose(key_layer))`,
shape (b, nh, s, s). -/
noncomputable def raw_scores (L : Gemma3VisionAttention nh hd)
    (x : Tensor3 b s (nh * hd)) : Tensor4 b nh s s :=
  fun i h t u =>
    ∑ k, transpose_for_scores (L.query_proj.apply3 x) i h t k *
      transpose_for_scores (L.key_proj.apply3 x) i h u k

/-- Scores divided by `dk = sqrt(head_dim)`. -/
noncomputable def scaled_scores (L : Gemma3VisionAttention nh hd)
    (x : Tensor3 b s (nh * hd)) : Tensor4 b nh s s :=
  fun i h t u => raw_scores L x i h t u / Real.sqrt (hd : ℝ)

/-- The `if attention_mask is not None` branch: add the mask to the scores
when one is given, otherwise leave the scores unchanged. -/
noncomputable def maskScores (scores : Tensor4 b nh s s) :
    Option (AttnMask b s) → Tensor4 b nh s s
  | some m => fun i h t u => scores i h t u + m i t u
  | none => scores

/-- `attention_probs = ops.softmax(attention_scores, axis=-1)`, computed
before the dropout layer is applied. -/
noncomputable def attention_probs (L : Gemma3VisionAttention nh hd)
    (x : Tensor3 b s (nh * hd)) (mask : Option (AttnMask b s)) :
    Tensor4 b nh s s :=
  fun i h t => softmax (maskScores (scaled_scores L x) mask i h t)

/-- `dropout_attention_probs = self.dropout_layer(attention_probs,
training=training)`: identity when not training. -/
noncomputable def dropped_probs (L : Gemma3VisionAttention nh hd)
    (x : Tensor3 b s (nh * hd)) (mask : Option (AttnMask b s))
    (training : Bool) : Tensor4 b nh s s :=
  if training then L.dropoutApply b s (attention_probs L x mask)
  else attention_probs L x mask

/-- `attn_output = ops.matmul(dropout_attention_probs, value_layer)`,
shape (b, nh, s, hd). -/
noncomputable def attn_output4 (L : Gemma3VisionAttention nh hd)
    (x : Tensor3 b s (nh * hd)) (mask : Option (AttnMask b s))
    (training : Bool) : Tensor4 b nh s hd :=
  fun i h t k =>
    ∑ u, dropped_probs L x mask training i h t u *
      transpose_for_scores (L.value_proj.apply3 x) i h u k

/-- Transpose (b, nh, s, hd) back to (b, s, nh, hd) and reshape to
(b, s, nh*hd), recombining the heads. -/
noncomputable def mergeHeads (t : Tensor4 b nh s hd) : Tensor3 b s (nh * hd) :=
  fun i u j => t i (finHead j) u (finSub j)

/-- `Gemma3VisionAttention.call`: returns the pair
`(attn_output, attention_probs)` exactly as the source does. -/
noncomputable def call (L : Gemma3VisionAttention nh hd)
    (x : Tensor3 b s (nh * hd)) (attention_mask : Option (AttnMask b s))
    (training : Bool) : Tensor3 b s (nh * hd) × Tensor4 b nh s s :=
  (L.out_proj.apply3 (mergeHeads (attn_output4 L x attention_mask training)),
   attention_probs L x attention_mask)

end Gemma3VisionAttention

/-- Formulation of the attention layer following the words of the
specification: Q, K, V are learned linear projections of x, split into
num_heads groups of head_dim; scores are Q Kᵀ divided by sqrt(head_dim);
the optional additive mask is added to the scores; softmax is applied over
the last axis; the heads are recombined and the output projection applied;
the result is the pair (attended output, attention probabilities). -/
noncomputable def specSplitHeads {b s nh hd : Nat} (t : Tensor3 b s (nh * hd)) :
    Tensor4 b nh s hd :=
  fun i h u k => t i u (finPack h k)

/-- Scaled dot-product scores of the spec: (Q · Kᵀ) / sqrt(head_dim). -/
noncomputable def specScores {b s nh hd : Nat} (q k2 : Tensor4 b nh s hd) :
    Tensor4 b nh s s :=
  fun i h t u => (∑ k, q i h t k * k2 i h u k) / Real.sqrt (hd : ℝ)

/-- Mask addition of the spec: add the mask to the scores when one is given. -/
noncomputable def specAddMask {b nh s : Nat} (scores : Tensor4 b nh s s) :
    Option (AttnMask b s) → Tensor4 b nh s s
  | some m => fun i h t u => scores i h t u + m i t u
  | none => scores

/-- Head recombination of the spec. -/
noncomputable def specRecombine {b s nh hd : Nat} (t : Tensor4 b nh s hd) :
    Tensor3 b s (nh * hd) :=
  fun i u j => t i (finHead j) u (finSub j)

/-- The whole attention computation as described by the specification. -/
noncomputable def attentionSpec {b s nh hd : Nat}
    (L : Gemma3VisionAttention nh hd) (x : Tensor3 b s (nh * hd))
    (mask : Option (AttnMask b s)) :
    Tensor3 b s (nh * hd) × Tensor4 b nh s s :=
  let q := specSplitHeads (L.query_proj.apply3 x)
  let k := specSplitHeads (L.key_proj.apply3 x)
  let v := specSplitHeads (L.value_proj.apply3 x)
  let probs : Tensor4 b nh s s :=
    fun i h t => softmax (specAddMask (specScores q k) mask i h t)
  (L.out_proj.apply3 (specRecombine (fun i h t kk => ∑ u, probs i h t u * v i h u kk)),
   probs)

/-- The `Gemma3VisionEncoderLayer` after `build`: the attention sublayer has
hidden_dim `nh * hd` taken from the input shape, `mlp_dense_1` maps the
hidden width to `intermediate_dim` and `mlp_dense_2` maps it back, exactly
as the source `build` constructs them. -/
structure Gemma3VisionEncoderLayer (nh hd inter : Nat) where
  attn : Gemma3VisionAttention nh hd
  layer_norm_1 : LayerNorm (nh * hd)
  layer_norm_2 : LayerNorm (nh * hd)
  mlp_dense_1 : DenseLayer (nh * hd) inter
  mlp_dense_2 : DenseLayer inter (nh * hd)

namespace Gemma3VisionEncoderLayer

variable {b s nh hd inter : Nat}

/-- `compute_attention`: calls the attention sublayer (the dtype cast of the
mask is the identity on real numbers) and keeps element [0] of the pair. -/
noncomputable def compute_attention (L : Gemma3VisionEncoderLayer nh hd inter)
    (x : Tensor3 b s (nh * hd)) (mask : Option (AttnMask b s)) :
    Tensor3 b s (nh * hd) :=
  (L.attn.call x mask false).1

/-- The first residual stage of `call`:
`x = layer_norm_1(x); x = compute_attention(x, mask); x = x + residual`. -/
noncomputable def after_attention (L : Gemma3VisionEncoderLayer nh hd inter)
    (x : Tensor3 b s (nh * hd)) (mask : Option (AttnMask b s)) :
    Tensor3 b s (nh * hd) :=
  fun i t j =>
    compute_attention L (L.layer_norm_1.apply3 x) mask i t j + x i t j

/-- The MLP stage of `call`:
`x = mlp_dense_1(layer_norm_2(residual)); x = gelu(x, approximate=True);
x = mlp_dense_2(x)`. -/
noncomputable def mlp_branch (L : Gemma3VisionEncoderLayer nh hd inter)
    (r : Tensor3 b s (nh * hd)) : Tensor3 b s (nh * hd) :=
  L.mlp_dense_2.apply3
    (fun i t j => gelu_approx (L.mlp_dense_1.apply3 (L.layer_norm_2.apply3 r) i t j))

/-- `Gemma3VisionEncoderLayer.call`: the two residual stages of the source,
returning `residual + x`. -/
noncomputable def call (L : Gemma3VisionEncoderLayer nh hd inter)
    (x : Tensor3 b s (nh * hd)) (mask : Option (AttnMask b s)) :
    Tensor3 b s (nh * hd) :=
  fun i t j =>
    after_attention L x mask i t j +
      mlp_branch L (after_attention L x mask) i t j

/-- `compute_output_shape` of the source: returns its input shape. -/
def compute_output_shape (inputs_shape : List Nat) : List Nat :=
  inputs_shape

end Gemma3VisionEncoderLayer

/-- Transformer-block formula as worded by the specification:
`x1 = x + Attention(LayerNorm(x), mask)`. -/
noncomputable def xPrime {b s nh hd inter : Nat}
    (L : Gemma3VisionEncoderLayer nh hd inter) (x : Tensor3 b s (nh * hd))
    (mask : Option (AttnMask b s)) : Tensor3 b s (nh * hd) :=
  fun i t j => x i t j + (L.attn.call (L.layer_norm_1.apply3 x) mask false).1 i t j

/-- The two-layer feed-forward network of the specification:
Dense(hidden → intermediate), tanh-approximation GELU,
Dense(intermediate → hidden). -/
noncomputable def specMLP {b s nh hd inter : Nat}
    (L : Gemma3VisionEncoderLayer nh hd inter) (v : Tensor3 b s (nh * hd)) :
    Tensor3 b s (nh * hd) :=
  L.mlp_dense_2.apply3 (fun i t j => gelu_approx (L.mlp_dense_1.apply3 v i t j))

/-- The whole encoder-layer computation as described by the specification:
`x2 = x1 + MLP(LayerNorm(x1))` with `x1 = x + Attention(LayerNorm(x), mask)`. -/
noncomputable def encoderLayerSpec {b s nh hd inter : Nat}
    (L : Gemma3VisionEncoderLayer nh hd inter) (x : Tensor3 b s (nh * hd))
    (mask : Option (AttnMask b s)) : Tensor3 b s (nh * hd) :=
  fun i t j =>
    xPrime L x mask i t j +
      specMLP L (L.layer_norm_2.apply3 (xPrime L x mask)) i t j

/-- Static shape of a rank-3 tensor. -/
def tshape3 {b s d : Nat} (_x : Tensor3 b s d) : List Nat := [b, s, d]

/-- The `dtype` argument of the top-level encoder: Python `None`, a dtype
string, or a `keras.mixed_precision.DTypePolicy` object (identified by its
name).  A policy object never compares equal to a string in Python. -/
inductive DTypeArg where
  | noneArg : DTypeArg
  | str : String → DTypeArg
  | policy : String → DTypeArg
deriving DecidableEq, Repr

/-- Sublayer dtypes recorded while the functional model of the top-level
encoder is assembled. -/
structure EncoderDtypes where
  image_encoder : DTypeArg
  pooling : DTypeArg
  vision_output_encoder : DTypeArg
deriving DecidableEq, Repr

/-- The dtype rewrite at the top of `Gemma3VisionEncoder.__init__`:
`if dtype == "bfloat16": dtype = "float32"`.  Only the exact string
compares equal. -/
def Gemma3VisionEncoder.resolveDtype (dtype : DTypeArg) : DTypeArg :=
  if dtype = DTypeArg.str "bfloat16" then DTypeArg.str "float32" else dtype

/-- The dtypes handed to the three sublayers of the functional model, all
equal to the resolved dtype since the rewrite happens first. -/
def Gemma3VisionEncoder.sublayerDtypes (dtype : DTypeArg) : EncoderDtypes :=
  { image_encoder := Gemma3VisionEncoder.resolveDtype dtype
    pooling := Gemma3VisionEncoder.resolveDtype dtype
    vision_output_encoder := Gemma3VisionEncoder.resolveDtype dtype }

/-- Configuration computed by `Gemma3VisionEmbedding.__init__`. -/
structure Gemma3VisionEmbeddingConfig where
  image_size : Nat
  patch_size : Nat
  hidden_dim : Nat
  num_patches : Nat
  num_positions : Nat
deriving DecidableEq, Repr

/-- `Gemma3VisionEmbedding.__init__`: computes
`num_patches = (image_size // patch_size) ** 2` with floor division and no
divisibility check; the only way it can raise is Python's division by zero. -/
def Gemma3VisionEmbedding.init (image_size patch_size hidden_dim : Nat) :
    Except String Gemma3VisionEmbeddingConfig :=
  if patch_size = 0 then
    Except.error "ZeroDivisionError: integer division or modulo by zero"
  else
    Except.ok
      { image_size := image_size
        patch_size := patch_size
        hidden_dim := hidden_dim
        num_patches := (image_size / patch_size) ^ 2
        num_positions := (image_size / patch_size) ^ 2 }

/-- Configuration computed by `Gemma3VisionAttention.__init__`. -/
structure Gemma3VisionAttentionConfig where
  hidden_dim : Nat
  num_heads : Nat
  head_dim : Nat
deriving DecidableEq, Repr

/-- `Gemma3VisionAttention.__init__`: sets
`head_dim = hidden_dim // num_heads` (Python floor division raises on a
zero divisor) and raises `ValueError` when
`head_dim * num_heads != hidden_dim`. -/
def Gemma3VisionAttention.init (hidden_dim num_heads : Nat) :
    Except String Gemma3VisionAttentionConfig :=
  if num_heads = 0 then
    Except.error "ZeroDivisionError: integer division or modulo by zero"
  else if hidden_dim / num_heads * num_heads ≠ hidden_dim then
    Except.error "hidden_dim must be divisible by num_heads"
  else
    Except.ok
      { hidden_dim := hidden_dim
        num_heads := num_heads
        head_dim := hidden_dim / num_heads }

/-- Configuration computed by `Gemma3VisionAveragePooling.__init__`. -/
structure Gemma3VisionAveragePoolingConfig where
  image_size : Nat
  patch_size : Nat
  pool_size : Nat
  width : Nat
  reduced_width : Nat
deriving DecidableEq, Repr

/-- `width = image_size // patch_size` from the pooling constructor. -/
def Gemma3VisionAveragePooling.width (image_size patch_size : Nat) : Nat :=
  image_size / patch_size

/-- `reduced_width = width // pool_size` from the pooling constructor; the
source comment notes it equals `num_vision_tokens_per_image`. -/
def Gemma3VisionAveragePooling.reduced_width
    (image_size patch_size pool_size : Nat) : Nat :=
  Gemma3VisionAveragePooling.width image_size patch_size / pool_size

/-- `Gemma3VisionAveragePooling.__init__`: computes `width` and
`reduced_width` with floor division and performs no divisibility check; the
only possible failures are Python's divisions by zero. -/
def Gemma3VisionAveragePooling.init (image_size patch_size pool_size : Nat) :
    Except String Gemma3VisionAveragePoolingConfig :=
  if patch_size = 0 then
    Except.error "ZeroDivisionError: integer division or modulo by zero"
  else if pool_size = 0 then
    Except.error "ZeroDivisionError: integer division or modulo by zero"
  else
    Except.ok
      { image_size := image_size
        patch_size := patch_size
        pool_size := pool_size
        width := Gemma3VisionAveragePooling.width image_size patch_size
        reduced_width :=
          Gemma3VisionAveragePooling.reduced_width image_size patch_size pool_size }

/-- `Gemma3VisionAveragePooling.compute_output_shape`: the token axis
becomes `reduced_width * reduced_width`. -/
def Gemma3VisionAveragePooling.compute_output_shape
    (image_size patch_size pool_size : Nat) (input_shape : List Nat) :
    List Nat :=
  [input_shape.getD 0 0,
    Gemma3VisionAveragePooling.reduced_width image_size patch_size pool_size *
      Gemma3VisionAveragePooling.reduced_width image_size patch_size pool_size,
    input_shape.getLastD 0]

/-- `num_vision_tokens_per_image = ((image_size // patch_size) ** 2) //
(pool_size ** 2)` from `Gemma3VisionEncoder.__init__`. -/
def Gemma3VisionEncoder.numVisionTokensPerImage
    (image_size patch_size pool_size : Nat) : Nat :=
  ((image_size / patch_size) ^ 2) / pool_size ^ 2

/-- Configuration computed by `Gemma3VisionEncoder.__init__`. -/
structure Gemma3VisionEncoderConfig where
  image_size : Nat
  patch_size : Nat
  num_heads : Nat
  hidden_dim : Nat
  num_layers : Nat
  intermediate_dim : Nat
  output_dim : Nat
  pool_size : Nat
  num_vision_tokens_per_image : Nat
  dtypes : EncoderDtypes
deriving DecidableEq, Repr

/-- `Gemma3VisionEncoder.__init__`: resolves the dtype, then assembles the
functional model, which constructs and builds the embedding (floor
divisions), the attention layers (divisibility check) and the pooling layer
(floor divisions); any exception raised there aborts construction.  No
image-size, patch-size or pool-size divisibility is ever validated. -/
def Gemma3VisionEncoder.init
    (image_size patch_size num_heads hidden_dim num_layers intermediate_dim
      output_dim pool_size : Nat) (dtype : DTypeArg) :
    Except String Gemma3VisionEncoderConfig := do
  let _ ← Gemma3VisionEmbedding.init image_size patch_size hidden_dim
  let _ ← Gemma3VisionAttention.init hidden_dim num_heads
  let _ ← Gemma3VisionAveragePooling.init image_size patch_size pool_size
  Except.ok
    { image_size := image_size
      patch_size := patch_size
      num_heads := num_heads
      hidden_dim := hidden_dim
      num_layers := num_layers
      intermediate_dim := intermediate_dim
      output_dim := output_dim
      pool_size := pool_size
      num_vision_tokens_per_image :=
        Gemma3VisionEncoder.numVisionTokensPerImage image_size patch_size pool_size
      dtypes := Gemma3VisionEncoder.sublayerDtypes dtype }

/-- The nine configuration fields returned by
`Gemma3VisionEncoder.get_config` (on top of the base-model config). -/
structure Gemma3VisionEncoderGetConfig where
  num_heads : Nat
  hidden_dim : Nat
  num_layers : Nat
  intermediate_dim : Nat
  output_dim : Nat
  pool_size : Nat
  image_size : Nat
  patch_size : Nat
  layer_norm_epsilon : ℚ
deriving DecidableEq, Repr

/-- The constructed state of a `Gemma3VisionOutput` layer: its output width,
normalization epsilon and the (serialized name of the) kernel init
scheme. -/
structure Gemma3VisionOutput where
  output_dim : Nat
  layer_norm_epsilon : ℚ
  kernel_init : String
deriving DecidableEq, Repr

/-- The configuration dict `Gemma3VisionOutput.get_config` assembles. -/
structure Gemma3VisionOutputConfig where
  output_dim : Nat
  layer_norm_epsilon : ℚ
  kernel_init : String
deriving DecidableEq, Repr

/-- `Gemma3VisionOutput.get_config` of the source: it builds the updated
`config` dict but falls off the end of the function without a `return`
statement, so the call returns Python `None` and the built dict is
discarded. -/
def Gemma3VisionOutput.get_config (l : Gemma3VisionOutput) :
    Option Gemma3VisionOutputConfig :=
  let config : Gemma3VisionOutputConfig :=
    { output_dim := l.output_dim
      layer_norm_epsilon := l.layer_norm_epsilon
      kernel_init := l.kernel_init }
  none

/-- `Gemma3VisionOutput.compute_output_shape`: replaces the last axis by
`output_dim`. -/
def Gemma3VisionOutput.compute_output_shape (output_dim : Nat)
    (input_shape : List Nat) : List Nat :=
  input_shape.dropLast ++ [output_dim]

/-- Concrete dense layer used by witness instances. -/
noncomputable def denseOne : DenseLayer 1 1 :=
  { kernel := fun _ _ => 1, bias := fun _ => 0 }

/-- Concrete one-head, one-dimensional attention layer for witnesses. -/
noncomputable def attnW : Gemma3VisionAttention 1 1 :=
  { query_proj := denseOne
    key_proj := denseOne
    value_proj := denseOne
    out_proj := denseOne
    dropoutApply := fun _ _ t => t }

/-- Concrete input tensor for witnesses. -/
noncomputable def xW : Tensor3 1 1 1 := fun _ _ _ => 1

/-- Concrete all-zero additive mask for witnesses. -/
noncomputable def mW : AttnMask 1 1 := fun _ _ _ => 0

/-- Nat helper: when q divides W, squaring commutes with the floor
divisions used by the encoder and the pooling layer. -/
theorem sq_div_sq_of_dvd (W q : Nat) (h : q ∣ W) :
    W ^ 2 / q ^ 2 = (W / q) ^ 2 := by
  rcases h with ⟨m, rfl⟩
  rcases Nat.eq_zero_or_pos q with hq | hq
  · subst hq; simp
  · rw [mul_pow, Nat.mul_div_cancel_left _ (pow_pos hq 2),
      Nat.mul_div_cancel_left m hq]

/-- Claim C1, counterexample: with image_size=224, patch_size=14,
pool_size=14 (and an otherwise valid configuration) the encoder constructs
successfully — no divisibility error is raised, refuting the claim that
every such configuration fails construction. -/
theorem c1_counterexample :
    (Gemma3VisionEncoder.init 224 14 1 4 1 8 8 14 DTypeArg.noneArg).isOk
      = true := by decide

/-- Claim C1, amended: construction never validates divisibility of
image_size by patch_size or of the grid width by pool_size; the grid width
and reduced width are computed with silently truncating floor division, so
any configuration with nonzero patch_size, nonzero pool_size and hidden_dim
divisible by num_heads constructs successfully. -/
theorem c1_amended_no_divisibility_check :
    ∀ (image_size patch_size num_heads hidden_dim num_layers intermediate_dim
        output_dim pool_size : Nat) (dtype : DTypeArg),
      0 < patch_size → 0 < pool_size → 0 < num_heads →
      num_heads ∣ hidden_dim →
      (Gemma3VisionEncoder.init image_size patch_size num_heads hidden_dim
          num_layers intermediate_dim output_dim pool_size dtype).isOk = true := by
  intro i p n h nl im od q d hp hq hn hdvd
  simp [Gemma3VisionEncoder.init, Gemma3VisionEmbedding.init,
    Gemma3VisionAttention.init, Gemma3VisionAveragePooling.init,
    hp.ne', hq.ne', hn.ne', Nat.div_mul_cancel hdvd, Except.isOk,
    Except.toBool, Bind.bind, Except.bind]

/-- Claim C1, witness for the amended theorem: the non-divisible
configuration image_size=224, patch_size=14, pool_size=14 satisfies the
hypotheses and constructs successfully. -/
theorem c1_witness :
    (Gemma3VisionEncoder.init 224 14 2 8 1 16 16 14 DTypeArg.noneArg).isOk
      = true :=
  c1_amended_no_divisibility_check 224 14 2 8 1 16 16 14 DTypeArg.noneArg
    (by decide) (by decide) (by decide) (by decide)

/-- Claim C2: the output-projection sublayer's `get_config` builds the
configuration dict but returns Python `None` because the source lacks a
`return` statement, so the extracted configuration does not contain
output_dim, layer_norm_epsilon or the kernel init scheme. -/
theorem c2_output_get_config_returns_none :
    ∀ l : Gemma3VisionOutput, Gemma3VisionOutput.get_config l = none :=
  fun _ => rfl

/-- Claim C3, counterexample: a requested `float16` working precision is a
reduced-range floating format, yet the sublayers are constructed with
`float16`, not `float32` — the override applies only to the exact string
"bfloat16". -/
theorem c3_counterexample :
    (Gemma3VisionEncoder.sublayerDtypes (DTypeArg.str "float16")).image_encoder
        = DTypeArg.str "float16" ∧
      DTypeArg.str "float16" ≠ DTypeArg.str "float32" := by
  exact ⟨by decide, by decide⟩

/-- Claim C3, amended: every sublayer is constructed with the resolved
dtype, and the resolution replaces exactly the string "bfloat16" with
"float32"; the string "float16" and dtype-policy objects (even bfloat16
policies) pass through unchanged. -/
theorem c3_amended_dtype_override :
    (∀ d, Gemma3VisionEncoder.sublayerDtypes d =
      { image_encoder := Gemma3VisionEncoder.resolveDtype d
        pooling := Gemma3VisionEncoder.resolveDtype d
        vision_output_encoder := Gemma3VisionEncoder.resolveDtype d }) ∧
    Gemma3VisionEncoder.resolveDtype (DTypeArg.str "bfloat16")
        = DTypeArg.str "float32" ∧
    Gemma3VisionEncoder.resolveDtype (DTypeArg.str "float16")
        = DTypeArg.str "float16" ∧
    Gemma3VisionEncoder.resolveDtype (DTypeArg.policy "bfloat16")
        = DTypeArg.policy "bfloat16" := by
  exact ⟨fun d => rfl, by decide, by decide, by decide⟩

/-- Claim C7: for a positive head count, attention construction succeeds
exactly when hidden_dim is divisible by num_heads, and on success
`head_dim` is `hidden_dim / num_heads`. -/
theorem c7_attention_init_divisibility :
    ∀ (hidden_dim num_heads : Nat), 0 < num_heads →
      (((Gemma3VisionAttention.init hidden_dim num_heads).isOk = true) ↔
        num_heads ∣ hidden_dim) ∧
      (num_heads ∣ hidden_dim →
        Gemma3VisionAttention.init hidden_dim num_heads =
          Except.ok { hidden_dim := hidden_dim, num_heads := num_heads,
                      head_dim := hidden_dim / num_heads }) := by
  intro h n hn
  constructor
  · by_cases hdvd : n ∣ h
    · simp [Gemma3VisionAttention.init, hn.ne', Nat.div_mul_cancel hdvd,
        hdvd, Except.isOk, Except.toBool]
    · have hne : h / n * n ≠ h := by
        intro he
        exact hdvd ⟨h / n, by rw [Nat.mul_comm]; exact he.symm⟩
      simp [Gemma3VisionAttention.init, hn.ne', hne, hdvd, Except.isOk,
        Except.toBool]
  · intro hdvd
    simp [Gemma3VisionAttention.init, hn.ne', Nat.div_mul_cancel hdvd]

/-- Claim C7, witness: hidden_dim=8, num_heads=2 satisfies the positivity
hypothesis; success is equivalent to 2 dividing 8. -/
theorem c7_witness :
    ((Gemma3VisionAttention.init 8 2).isOk = true) ↔ (2 : Nat) ∣ 8 :=
  (c7_attention_init_divisibility 8 2 (by decide)).1

/-- Claim C8: for configurations satisfying the divisibility contract,
`num_vision_tokens_per_image` is `num_patches / pool_size^2`, equals the
token count of the encoder's output (the middle entry of the shape obtained
by chaining the pooling and output-projection shape rules), and evaluates
to 256 at image_size=896, patch_size=14, pool_size=4. -/
theorem c8_num_vision_tokens :
    ∀ (image_size patch_size pool_size batch hidden output_dim : Nat),
      patch_size ∣ image_size → pool_size ∣ (image_size / patch_size) →
      Gemma3VisionEncoder.numVisionTokensPerImage image_size patch_size pool_size
          = ((image_size / patch_size) ^ 2) / pool_size ^ 2 ∧
      (Gemma3VisionOutput.compute_output_shape output_dim
            (Gemma3VisionAveragePooling.compute_output_shape image_size
              patch_size pool_size
              [batch, (image_size / patch_size) ^ 2, hidden])).getD 1 0
          = Gemma3VisionEncoder.numVisionTokensPerImage image_size patch_size
              pool_size ∧
      Gemma3VisionEncoder.numVisionTokensPerImage 896 14 4 = 256 := by
  intro i p q bb hh od hpi hqw
  have h2 : Gemma3VisionEncoder.numVisionTokensPerImage i p q
      = Gemma3VisionAveragePooling.reduced_width i p q ^ 2 :=
    sq_div_sq_of_dvd (i / p) q hqw
  refine ⟨rfl, ?_, by decide⟩
  have h3 : (Gemma3VisionOutput.compute_output_shape od
      (Gemma3VisionAveragePooling.compute_output_shape i p q
        [bb, (i / p) ^ 2, hh])).getD 1 0
      = Gemma3VisionAveragePooling.reduced_width i p q *
        Gemma3VisionAveragePooling.reduced_width i p q := rfl
  rw [h3, h2, pow_two]

/-- Claim C8, witness: image_size=896, patch_size=14, pool_size=4 satisfies
both divisibility hypotheses. -/
theorem c8_witness :
    Gemma3VisionEncoder.numVisionTokensPerImage 896 14 4
        = ((896 / 14) ^ 2) / 4 ^ 2 ∧
      (Gemma3VisionOutput.compute_output_shape 2560
            (Gemma3VisionAveragePooling.compute_output_shape 896 14 4
              [1, (896 / 14) ^ 2, 1152])).getD 1 0
          = Gemma3VisionEncoder.numVisionTokensPerImage 896 14 4 ∧
      Gemma3VisionEncoder.numVisionTokensPerImage 896 14 4 = 256 :=
  c8_num_vision_tokens 896 14 4 1 1152 2560 (by decide) (by decide)

/-- Helper: a softmax row over a nonempty axis sums to one. -/
theorem softmax_sum_one {s : Nat} (t : Fin s) (v : Fin s → ℝ) :
    ∑ u, softmax v u = 1 := by
  have hpos : 0 < ∑ u, Real.exp (v u) :=
    Finset.sum_pos (fun u _ => Real.exp_pos (v u)) ⟨t, Finset.mem_univ t⟩
  simp only [softmax]
  rw [← Finset.sum_div]
  exact div_self (ne_of_gt hpos)

/-- Claim C4: in evaluation mode the attention layer computes exactly the
composition described by the specification — learned Q/K/V projections,
head split, scores (Q · Kᵀ)/sqrt(head_dim), optional additive mask, softmax
over the last axis, head recombination and output projection — and returns
the pair (attended output, attention probabilities). -/
theorem c4_attention_call_matches_spec :
    ∀ (b s nh hd : Nat) (L : Gemma3VisionAttention nh hd)
      (x : Tensor3 b s (nh * hd)) (mask : Option (AttnMask b s)),
      Gemma3VisionAttention.call L x mask false = attentionSpec L x mask := by
  intro b s nh hd L x mask
  rfl

/-- Claim C5: one encoder layer computes exactly
`x1 = x + Attention(LayerNorm1(x), mask)` followed by
`x2 = x1 + MLP(LayerNorm2(x1))`, where the MLP is
Dense(hidden → intermediate), tanh-approximation GELU,
Dense(intermediate → hidden). -/
theorem c5_encoder_layer_residual_formula :
    ∀ (b s nh hd inter : Nat) (L : Gemma3VisionEncoderLayer nh hd inter)
      (x : Tensor3 b s (nh * hd)) (mask : Option (AttnMask b s)),
      Gemma3VisionEncoderLayer.call L x mask = encoderLayerSpec L x mask := by
  intro b s nh hd inter L x mask
  have hswap : Gemma3VisionEncoderLayer.after_attention L x mask
      = xPrime L x mask := by
    funext i t j
    simp only [Gemma3VisionEncoderLayer.after_attention, xPrime,
      Gemma3VisionEncoderLayer.compute_attention]
    exact add_comm _ _
  funext i t j
  simp only [Gemma3VisionEncoderLayer.call, encoderLayerSpec,
    Gemma3VisionEncoderLayer.mlp_branch, specMLP, hswap]

/-- Claim C6: an all-zero additive mask is a true no-op — the attention
output on (x, zero mask) equals the output on (x, None). -/
theorem c6_zero_mask_noop :
    ∀ (b s nh hd : Nat) (L : Gemma3VisionAttention nh hd)
      (x : Tensor3 b s (nh * hd)) (m : AttnMask b s) (training : Bool),
      (∀ i t u, m i t u = 0) →
      Gemma3VisionAttention.call L x (some m) training
        = Gemma3VisionAttention.call L x none training := by
  intro b s nh hd L x m training hm
  have key : Gemma3VisionAttention.maskScores
      (Gemma3VisionAttention.scaled_scores L x) (some m)
      = Gemma3VisionAttention.maskScores
        (Gemma3VisionAttention.scaled_scores L x) none := by
    funext i h t u
    simp [Gemma3VisionAttention.maskScores, hm]
  have hprobs : Gemma3VisionAttention.attention_probs L x (some m)
      = Gemma3VisionAttention.attention_probs L x none := by
    funext i h t u
    simp only [Gemma3VisionAttention.attention_probs, key]
  have hdp : Gemma3VisionAttention.dropped_probs L x (some m) training
      = Gemma3VisionAttention.dropped_probs L x none training := by
    simp only [Gemma3VisionAttention.dropped_probs, hprobs]
  have hout : Gemma3VisionAttention.attn_output4 L x (some m) training
      = Gemma3VisionAttention.attn_output4 L x none training := by
    funext i h t k
    simp only [Gemma3VisionAttention.attn_output4, hdp]
  simp only [Gemma3VisionAttention.call, hout, hprobs]

/-- Claim C6, witness: a concrete layer, input and concrete all-zero mask
satisfy the hypothesis, so the two calls agree. -/
theorem c6_witness :
    Gemma3VisionAttention.call attnW xW (some mW) false
      = Gemma3VisionAttention.call attnW xW none false :=
  c6_zero_mask_noop 1 1 1 1 attnW xW mW false (fun _ _ _ => rfl)

/-- Claim C9: the encoder layer is shape preserving — the static shape of
the output tensor equals that of the input, agreeing with the source's
`compute_output_shape`, which returns its input shape. -/
theorem c9_encoder_layer_shape_preserving :
    ∀ (b s nh hd inter : Nat) (L : Gemma3VisionEncoderLayer nh hd inter)
      (mask : Option (AttnMask b s)) (x : Tensor3 b s (nh * hd)),
      tshape3 (Gemma3VisionEncoderLayer.call L x mask) = tshape3 x ∧
      tshape3 (Gemma3VisionEncoderLayer.call L x mask)
        = Gemma3VisionEncoderLayer.compute_output_shape (tshape3 x) := by
  intro b s nh hd inter L mask x
  exact ⟨rfl, rfl⟩

/-- Claim C10: the attention-probability tensor returned as the second
component is the softmax output taken before dropout — it does not depend
on the training flag, nor on the dropout sublayer's behaviour (dropout
affects only the first component), and each of its rows sums to 1. -/
theorem c10_attention_probs_pre_dropout :
    ∀ (b s nh hd : Nat) (L : Gemma3VisionAttention nh hd)
      (g : (b2 s2 : Nat) → Tensor4 b2 nh s2 s2 → Tensor4 b2 nh s2 s2)
      (x : Tensor3 b s (nh * hd)) (mask : Option (AttnMask b s))
      (training : Bool) (i : Fin b) (h : Fin nh) (t : Fin s),
      (Gemma3VisionAttention.call L x mask training).2
          = (Gemma3VisionAttention.call L x mask false).2 ∧
      (Gemma3VisionAttention.call { L with dropoutApply := g } x mask
            training).2
          = (Gemma3VisionAttention.call L x mask training).2 ∧
      ∑ u, (Gemma3VisionAttention.call L x mask training).2 i h t u = 1 := by
  intro b s nh hd L g x mask training i h t
  refine ⟨rfl, rfl, ?_⟩
  exact softmax_sum_one t _
